import Mathlib

/-!
# Verification of the medusa cart-completion subsystem

Shallow embedding of `src/packages/medusa/src/api/routes/store/carts/complete-cart.ts`
(the completion endpoint handler) together with the collaborators the spec
describes: the idempotency key store, the completion step executor, the cart
completion strategy, and the price selection strategy.  The handler itself is
translated directly from the TypeScript source; the collaborators, whose
implementations live outside the excerpted sources, are modelled from the spec
and marked as such in their doc comments.
-/

namespace Medusa

/-- Recovery points of the completion workflow.  Modelled from the spec:
"a fixed, linearly ordered set of named recovery points specific to the domain
workflow (e.g., `started → tax_lines_validated → payment_authorized →
order_created → finished`)". -/
inductive RecoveryPoint where
  | started
  | tax_lines_validated
  | payment_authorized
  | order_created
  | finished
  deriving DecidableEq, Repr

/-- Tag of the completion outcome, per the OAS schema of the handler:
`type: string, enum: [order, cart, swap]`. -/
inductive ResultType where
  | order
  | cart
  | swap
  deriving DecidableEq, Repr

/-- Tagged response payload of a completion: `{type, data}` where `data` is an
opaque entity snapshot (order, cart or swap). -/
structure TaggedBody where
  type : ResultType
  data : String
  deriving DecidableEq, Repr

/-- The `IdempotencyKey` persisted entity (`src/.../models`, used by the
handler).  Fields per the spec data model: token, request fingerprint,
recovery point, and the persisted final response. -/
structure IdempotencyKey where
  idempotency_key : String
  request_method : String
  request_path : String
  request_params : String
  recovery_point : RecoveryPoint
  response_code : Option Nat
  response_body : Option TaggedBody
  deriving DecidableEq, Repr

/-- Result contract of a cart completion strategy:
`complete(cartId, idempotencyKey, requestContext) -> { response_code, response_body }`. -/
structure CompletionResponse (β : Type) where
  response_code : Nat
  response_body : β
  deriving DecidableEq, Repr

/-- An HTTP response body as written by the handler: either plain text via
`res.send(...)` or JSON via `res.json(...)`. -/
inductive ResBody (β : Type) where
  | text (s : String)
  | json (j : β)
  deriving DecidableEq, Repr

/-- The observable HTTP response produced by the handler: status code, the
headers the handler sets via `res.setHeader`, and the body. -/
structure HandlerResponse (β : Type) where
  status : Nat
  headers : List (String × String)
  body : ResBody β
  deriving DecidableEq, Repr

/-- The parts of the Express request the handler reads: `req.params.id`,
`req.get("Idempotency-Key")` (absent header modelled as `none`), `req.method`
and `req.path`. -/
structure HttpRequest where
  params_id : String
  idempotencyKeyHeader : Option String
  method : String
  path : String

/-- `req.get("Idempotency-Key") || ""` — a missing header yields the empty
string (and an empty header value stays empty, so `getD` is exact). -/
def headerKeyOf (req : HttpRequest) : String :=
  req.idempotencyKeyHeader.getD ""

/-- The completion endpoint handler, translated from `complete-cart.ts`
lines 79–116.  `initializeRequest` stands for the transactional
`idempotencyKeyService.withTransaction(tm).initializeRequest(headerKey,
req.method, req.params, req.path)` call, which may throw (`Except.error`);
`complete` stands for `cartCompletionStrategy.complete`, which may mutate
persistent state `σ`.  On an initialization error the handler answers
`res.status(409).send("Failed to create idempotency key")` and returns before
setting any header and before resolving or invoking the strategy; otherwise it
sets the two headers and replies
`res.status(response_code).json(response_body)`. -/
def completeCartHandler {ε σ β : Type}
    (initializeRequest : String → String → String → String → Except ε IdempotencyKey)
    (complete : String → IdempotencyKey → σ → CompletionResponse β × σ)
    (req : HttpRequest) (s : σ) : HandlerResponse β × σ :=
  let headerKey := headerKeyOf req
  match initializeRequest headerKey req.method req.params_id req.path with
  | Except.error _ =>
      ({ status := 409, headers := [], body := ResBody.text "Failed to create idempotency key" }, s)
  | Except.ok idempotencyKey =>
      let (r, s') := complete req.params_id idempotencyKey s
      ({ status := r.response_code
         headers := [("Access-Control-Expose-Headers", "Idempotency-Key"),
                     ("Idempotency-Key", idempotencyKey.idempotency_key)]
         body := ResBody.json r.response_body }, s')

end Medusa

namespace Medusa

/-- C2: on a failed key initialization the handler answers 409 immediately,
leaves the state untouched (no strategy side effect), and the outcome does not
depend on the strategy at all — it was never invoked. -/
theorem handler_conflict_on_init_failure {ε σ β : Type}
    (initializeRequest : String → String → String → String → Except ε IdempotencyKey)
    (complete : String → IdempotencyKey → σ → CompletionResponse β × σ)
    (req : HttpRequest) (s : σ) (e : ε)
    (h : initializeRequest (headerKeyOf req) req.method req.params_id req.path = Except.error e) :
    (completeCartHandler initializeRequest complete req s).1.status = 409 ∧
      (completeCartHandler initializeRequest complete req s).2 = s ∧
      (∀ complete' : String → IdempotencyKey → σ → CompletionResponse β × σ,
        completeCartHandler initializeRequest complete' req s =
          completeCartHandler initializeRequest complete req s) := by
  refine ⟨?_, ?_, ?_⟩ <;> simp [completeCartHandler, h]

/-- Witness for C2 at a concrete always-failing initializer. -/
theorem handler_conflict_on_init_failure_witness :
    (completeCartHandler (ε := String) (σ := Nat) (β := TaggedBody)
        (fun _ _ _ _ => Except.error "db down")
        (fun _ _ s => (⟨200, ⟨ResultType.order, "o"⟩⟩, s + 1))
        ⟨"cart_a", none, "POST", "/store/carts/cart_a/complete"⟩ 0).1.status = 409 ∧
      (completeCartHandler (ε := String) (σ := Nat) (β := TaggedBody)
        (fun _ _ _ _ => Except.error "db down")
        (fun _ _ s => (⟨200, ⟨ResultType.order, "o"⟩⟩, s + 1))
        ⟨"cart_a", none, "POST", "/store/carts/cart_a/complete"⟩ 0).2 = 0 :=
  ⟨(handler_conflict_on_init_failure
      (fun _ _ _ _ => Except.error "db down")
      (fun _ _ s => (⟨200, ⟨ResultType.order, "o"⟩⟩, s + 1))
      ⟨"cart_a", none, "POST", "/store/carts/cart_a/complete"⟩ 0 "db down" rfl).1,
   (handler_conflict_on_init_failure
      (fun _ _ _ _ => Except.error "db down")
      (fun _ _ s => (⟨200, ⟨ResultType.order, "o"⟩⟩, s + 1))
      ⟨"cart_a", none, "POST", "/store/carts/cart_a/complete"⟩ 0 "db down" rfl).2.1⟩

/-- C4: when key initialization succeeds, the handler's status code and JSON
body are exactly the `response_code` and `response_body` returned by the
strategy — nothing is added, removed or transformed. -/
theorem handler_passes_strategy_response_through {ε σ β : Type}
    (initializeRequest : String → String → String → String → Except ε IdempotencyKey)
    (complete : String → IdempotencyKey → σ → CompletionResponse β × σ)
    (req : HttpRequest) (s : σ) (k : IdempotencyKey)
    (h : initializeRequest (headerKeyOf req) req.method req.params_id req.path = Except.ok k) :
    (completeCartHandler initializeRequest complete req s).1.status =
        (complete req.params_id k s).1.response_code ∧
      (completeCartHandler initializeRequest complete req s).1.body =
        ResBody.json (complete req.params_id k s).1.response_body := by
  refine ⟨?_, ?_⟩ <;> simp [completeCartHandler, h]

/-- Concrete succeeding initializer for the C4 witness. -/
def initOkW : String → String → String → String → Except String IdempotencyKey :=
  fun hk m _ p => Except.ok ⟨"ik_1", m, p, hk, RecoveryPoint.started, none, none⟩

/-- Concrete strategy for the C4 witness. -/
def stratW : String → IdempotencyKey → Nat → CompletionResponse TaggedBody × Nat :=
  fun cid _ s => (⟨200, ⟨ResultType.order, cid⟩⟩, s + 1)

/-- Concrete request for the C4 witness. -/
def reqW : HttpRequest := ⟨"cart_b", some "tok", "POST", "/store/carts/cart_b/complete"⟩

/-- The key record `initOkW` resolves for `reqW`. -/
def keyW : IdempotencyKey :=
  ⟨"ik_1", "POST", "/store/carts/cart_b/complete", "tok", RecoveryPoint.started, none, none⟩

/-- Witness for C4 at a concrete succeeding initializer and strategy. -/
theorem handler_passes_strategy_response_through_witness :
    (completeCartHandler initOkW stratW reqW 0).1.status =
        (stratW reqW.params_id keyW 0).1.response_code ∧
      (completeCartHandler initOkW stratW reqW 0).1.body =
        ResBody.json (stratW reqW.params_id keyW 0).1.response_body :=
  handler_passes_strategy_response_through initOkW stratW reqW 0 keyW rfl

/-- C10: any error from `initializeRequest` — whatever its type and value —
yields the one fixed response: status 409 with the plain-text body
`"Failed to create idempotency key"` and no headers set by the handler. -/
theorem handler_init_failure_fixed_response {ε σ β : Type}
    (initializeRequest : String → String → String → String → Except ε IdempotencyKey)
    (complete : String → IdempotencyKey → σ → CompletionResponse β × σ)
    (req : HttpRequest) (s : σ) (e : ε)
    (h : initializeRequest (headerKeyOf req) req.method req.params_id req.path = Except.error e) :
    (completeCartHandler initializeRequest complete req s).1 =
      { status := 409, headers := [],
        body := ResBody.text "Failed to create idempotency key" } := by
  simp [completeCartHandler, h]

/-- Witness for C10 with a distinct error type (`Nat`), showing the response
is the same fixed one regardless of the error's type or value. -/
theorem handler_init_failure_fixed_response_witness :
    (completeCartHandler (ε := Nat) (σ := List String) (β := TaggedBody)
        (fun _ _ _ _ => Except.error 42)
        (fun cid _ s => (⟨200, ⟨ResultType.cart, cid⟩⟩, cid :: s))
        ⟨"cart_c", some "k9", "POST", "/store/carts/cart_c/complete"⟩ []).1 =
      { status := 409, headers := [],
        body := ResBody.text "Failed to create idempotency key" } :=
  handler_init_failure_fixed_response
    (fun _ _ _ _ => Except.error 42)
    (fun cid _ s => (⟨200, ⟨ResultType.cart, cid⟩⟩, cid :: s))
    ⟨"cart_c", some "k9", "POST", "/store/carts/cart_c/complete"⟩ [] 42 rfl

/-- Always-failing initializer used by the C3 counterexample. -/
def initErrW : String → String → String → String → Except String IdempotencyKey :=
  fun _ _ _ _ => Except.error "could not acquire key"

/-- Strategy used by the C3 counterexample (never reached). -/
def stratC3 : String → IdempotencyKey → Nat → CompletionResponse TaggedBody × Nat :=
  fun cid _ s => (⟨200, ⟨ResultType.order, cid⟩⟩, s)

/-- Request used by the C3 counterexample. -/
def reqC3 : HttpRequest := ⟨"cart_d", some "dup", "POST", "/store/carts/cart_d/complete"⟩

/-- C3 counterexample: a request that fails at key initialization gets a 409
response with NO headers at all — in particular no `Idempotency-Key` header
and no `Access-Control-Expose-Headers` — refuting "including requests that
fail". -/
theorem handler_failed_request_has_no_idempotency_header :
    (completeCartHandler initErrW stratC3 reqC3 0).1.status = 409 ∧
      (completeCartHandler initErrW stratC3 reqC3 0).1.headers = [] := by
  constructor <;> rfl

/-- C3 amended: for every request whose idempotency key initialization
succeeds — whatever status the strategy then returns, success or failure —
the response headers are exactly `Access-Control-Expose-Headers:
Idempotency-Key` followed by `Idempotency-Key: <resolved key token>`;
requests failing at key initialization carry no headers. -/
theorem handler_success_response_exposes_idempotency_key {ε σ β : Type}
    (initializeRequest : String → String → String → String → Except ε IdempotencyKey)
    (complete : String → IdempotencyKey → σ → CompletionResponse β × σ)
    (req : HttpRequest) (s : σ) (k : IdempotencyKey)
    (h : initializeRequest (headerKeyOf req) req.method req.params_id req.path = Except.ok k) :
    (completeCartHandler initializeRequest complete req s).1.headers =
      [("Access-Control-Expose-Headers", "Idempotency-Key"),
       ("Idempotency-Key", k.idempotency_key)] := by
  simp [completeCartHandler, h]

/-- Initializer for the C3-amended witness. -/
def initOkC3 : String → String → String → String → Except String IdempotencyKey :=
  fun hk m _ p => Except.ok ⟨"srv_gen_7", m, p, hk, RecoveryPoint.started, none, none⟩

/-- Strategy for the C3-amended witness: it FAILS with a 400, yet the headers
are still set. -/
def stratC3ok : String → IdempotencyKey → Nat → CompletionResponse TaggedBody × Nat :=
  fun cid _ s => (⟨400, ⟨ResultType.cart, cid⟩⟩, s)

/-- Request for the C3-amended witness (no client token supplied). -/
def reqC3ok : HttpRequest := ⟨"cart_e", none, "POST", "/store/carts/cart_e/complete"⟩

/-- Key record `initOkC3` resolves for `reqC3ok`. -/
def keyC3ok : IdempotencyKey :=
  ⟨"srv_gen_7", "POST", "/store/carts/cart_e/complete", "", RecoveryPoint.started, none, none⟩

/-- Witness for the amended C3 at a concrete failing-but-initialized request. -/
theorem handler_success_response_exposes_idempotency_key_witness :
    (completeCartHandler initOkC3 stratC3ok reqC3ok 0).1.headers =
      [("Access-Control-Expose-Headers", "Idempotency-Key"),
       ("Idempotency-Key", keyC3ok.idempotency_key)] :=
  handler_success_response_exposes_idempotency_key initOkC3 stratC3ok reqC3ok 0 keyC3ok rfl

/-! ## Completion step executor (modelled from the spec)

The executor and the default cart completion strategy live outside the
excerpted sources; only their contract appears in `complete-cart.ts`.  The
definitions below are modelled from the spec: one completion attempt is a
single atomic transaction that, when `recovery_point == finished`,
short-circuits and returns the persisted `response_code`/`response_body`
unchanged, and otherwise authorizes payment, creates the order, persists the
response and marks the key finished — all in one transaction. -/

/-- An order record, the externally-visible side effect of completion. -/
structure Order where
  id : String
  cart_id : String
  deriving DecidableEq, Repr

/-- Persistent state shared by all completion calls for one idempotency
token: the key record, the orders created so far, and a count of payment
authorizations executed. -/
structure ExecState where
  key : IdempotencyKey
  orders : List Order
  auths : Nat
  deriving DecidableEq, Repr

/-- Modelled from the spec: one completion call as a single atomic
transaction.  If `recovery_point == finished`, short-circuit and return the
persisted `response_code`/`response_body` unchanged; otherwise run the domain
completion (`domain` yields the response and the order it creates), record
one payment authorization and one order, persist the response on the key and
advance `recovery_point` to `finished`. -/
def completeOnce (domain : String → CompletionResponse TaggedBody × Order)
    (cartId : String) (s : ExecState) : CompletionResponse TaggedBody × ExecState :=
  if s.key.recovery_point = RecoveryPoint.finished then
    (⟨s.key.response_code.getD 500, s.key.response_body.getD ⟨ResultType.cart, ""⟩⟩, s)
  else
    ((domain cartId).1,
     { key := { s.key with
                  recovery_point := RecoveryPoint.finished
                  response_code := some (domain cartId).1.response_code
                  response_body := some (domain cartId).1.response_body }
       orders := (domain cartId).2 :: s.orders
       auths := s.auths + 1 })

/-- C1: replaying a completion with the same token and cart is idempotent —
the second call returns exactly the first call's response code and body, and
creates no new order (indeed it changes nothing at all). -/
theorem completeOnce_replay_idempotent
    (domain : String → CompletionResponse TaggedBody × Order)
    (cartId : String) (s : ExecState) :
    completeOnce domain cartId (completeOnce domain cartId s).2 =
      completeOnce domain cartId s := by
  by_cases h : s.key.recovery_point = RecoveryPoint.finished <;>
    simp [completeOnce, h]

/-- Interleaving of two atomic completion transactions for the same token:
per the spec's lock invariant the two calls' transactions are serialized, so
the only schedules are "call one commits first" and "call two commits
first". -/
inductive Schedule where
  | firstWins
  | secondWins
  deriving DecidableEq, Repr

/-- Modelled from the spec: two simultaneous completion calls with the same
token and cart, executed as two serialized atomic transactions in the order
the schedule dictates.  Returns (winner's response, loser's response, final
state). -/
def runConcurrentPair (domain : String → CompletionResponse TaggedBody × Order)
    (cartId : String) (s : ExecState) (sch : Schedule) :
    CompletionResponse TaggedBody × CompletionResponse TaggedBody × ExecState :=
  match sch with
  | Schedule.firstWins =>
      ((completeOnce domain cartId s).1,
       (completeOnce domain cartId (completeOnce domain cartId s).2).1,
       (completeOnce domain cartId (completeOnce domain cartId s).2).2)
  | Schedule.secondWins =>
      ((completeOnce domain cartId s).1,
       (completeOnce domain cartId (completeOnce domain cartId s).2).1,
       (completeOnce domain cartId (completeOnce domain cartId s).2).2)

/-- C5: under either schedule, two simultaneous calls with the same token on
a not-yet-finished key execute exactly one payment authorization and create
exactly one order between them, and the loser observes the winner's response
code and body. -/
theorem concurrent_duplicate_single_execution
    (domain : String → CompletionResponse TaggedBody × Order)
    (cartId : String) (s : ExecState) (sch : Schedule)
    (h : s.key.recovery_point ≠ RecoveryPoint.finished) :
    (runConcurrentPair domain cartId s sch).2.2.auths = s.auths + 1 ∧
      (runConcurrentPair domain cartId s sch).2.2.orders.length = s.orders.length + 1 ∧
      (runConcurrentPair domain cartId s sch).2.1 = (runConcurrentPair domain cartId s sch).1 := by
  cases sch <;> simp [runConcurrentPair, completeOnce, h]

/-- Domain completion used by the C5 witness. -/
def domainW : String → CompletionResponse TaggedBody × Order :=
  fun cid => (⟨200, ⟨ResultType.order, "order_1"⟩⟩, ⟨"order_1", cid⟩)

/-- Fresh executor state used by the C5 witness. -/
def freshStateW : ExecState :=
  ⟨⟨"tok_c5", "POST", "/store/carts/cart_f/complete", "tok_c5",
      RecoveryPoint.started, none, none⟩, [], 0⟩

/-- Witness for C5 at a concrete fresh key and both-identical schedule. -/
theorem concurrent_duplicate_single_execution_witness :
    (runConcurrentPair domainW "cart_f" freshStateW Schedule.firstWins).2.2.auths =
        freshStateW.auths + 1 ∧
      (runConcurrentPair domainW "cart_f" freshStateW Schedule.firstWins).2.2.orders.length =
        freshStateW.orders.length + 1 ∧
      (runConcurrentPair domainW "cart_f" freshStateW Schedule.firstWins).2.1 =
        (runConcurrentPair domainW "cart_f" freshStateW Schedule.firstWins).1 :=
  concurrent_duplicate_single_execution domainW "cart_f" freshStateW Schedule.firstWins
    (by decide)

/-! ## Idempotency key store (modelled from the spec)

`IdempotencyKeyService.initializeRequest` is only called, not defined, in the
excerpted sources.  Modelled from the spec: "if `providedKey` is empty,
generates a fresh unique token and creates a new record with `recovery_point
= started`. If `providedKey` is non-empty, attempts to create a record with
that token; if a record already exists for that token, fetches and returns
the existing record instead of erroring (idempotent creation)." -/

/-- Lookup of a key record by its token in the store. -/
def findKey (records : List IdempotencyKey) (tok : String) : Option IdempotencyKey :=
  records.find? (fun r => r.idempotency_key == tok)

/-- Length of the longest token in the store; used to generate fresh ones. -/
def maxKeyLen (records : List IdempotencyKey) : Nat :=
  records.foldr (fun r acc => max r.idempotency_key.length acc) 0

/-- Modelled from the spec: a server-generated "fresh unique token" — opaque,
guaranteed distinct from every token in the store (here by being strictly
longer than all of them). -/
def freshToken (records : List IdempotencyKey) : String :=
  String.mk (List.replicate (maxKeyLen records + 1) 'k')

/-- A new key record with `recovery_point = started` and no response yet. -/
def newRecord (tok method params path : String) : IdempotencyKey :=
  { idempotency_key := tok
    request_method := method
    request_path := path
    request_params := params
    recovery_point := RecoveryPoint.started
    response_code := none
    response_body := none }

/-- Modelled from the spec: `initializeRequest(providedKey, method, params,
path)`.  Empty `providedKey`: create a record under a fresh token.
Non-empty: return the existing record for that token if there is one,
otherwise create one.  Returns the resolved record and the updated store. -/
def initializeRequest (records : List IdempotencyKey)
    (providedKey method params path : String) : IdempotencyKey × List IdempotencyKey :=
  if providedKey = "" then
    let created := newRecord (freshToken records) method params path
    (created, created :: records)
  else
    match findKey records providedKey with
    | some r => (r, records)
    | none =>
        let created := newRecord providedKey method params path
        (created, created :: records)

/-- Every token in the store is at most `maxKeyLen` long. -/
theorem length_le_maxKeyLen (records : List IdempotencyKey) (r : IdempotencyKey)
    (hr : r ∈ records) : r.idempotency_key.length ≤ maxKeyLen records := by
  induction records with
  | nil => cases hr
  | cons a tl ih =>
      rcases List.mem_cons.mp hr with h | h
      · subst h; exact le_max_left _ _
      · exact le_trans (ih h) (le_max_right _ _)

/-- The fresh token differs from every token already in the store. -/
theorem freshToken_not_mem (records : List IdempotencyKey) (r : IdempotencyKey)
    (hr : r ∈ records) : r.idempotency_key ≠ freshToken records := by
  intro h
  have hlen : r.idempotency_key.length = maxKeyLen records + 1 := by
    have := congrArg String.length h
    simpa [freshToken, String.length_mk] using this
  have := length_le_maxKeyLen records r hr
  omega

/-- Non-empty half of C6: after a first call has resolved the token, a second
call with the same token returns the very same record and leaves the store
unchanged; an already-present token is fetched, never an error. -/
theorem initializeRequest_idempotent_nonempty
    (records : List IdempotencyKey) (k method params path : String)
    (hk : k ≠ "") :
    (initializeRequest (initializeRequest records k method params path).2
        k method params path).1 =
      (initializeRequest records k method params path).1 ∧
    (initializeRequest (initializeRequest records k method params path).2
        k method params path).2 =
      (initializeRequest records k method params path).2 := by
  unfold initializeRequest
  simp only [hk, if_false]
  cases hfind : findKey records k with
  | some r =>
      have hr : r.idempotency_key = k := by
        have := List.find?_some hfind
        simpa using this
      simp [hfind]
  | none =>
      have : findKey (newRecord k method params path :: records) k =
          some (newRecord k method params path) := by
        simp [findKey, newRecord]
      simp [hfind, this]

/-- Empty half of C6: with an empty provided key, a fresh record is created
with `recovery_point = started` under a token distinct from every token
already in the store, and the record is added to the store. -/
theorem initializeRequest_empty_creates_fresh
    (records : List IdempotencyKey) (method params path : String) :
    (initializeRequest records "" method params path).1.recovery_point =
        RecoveryPoint.started ∧
      (initializeRequest records "" method params path).2 =
        (initializeRequest records "" method params path).1 :: records ∧
      ∀ r ∈ records,
        r.idempotency_key ≠
          (initializeRequest records "" method params path).1.idempotency_key := by
  refine ⟨rfl, rfl, ?_⟩
  intro r hr
  simpa [initializeRequest, newRecord] using freshToken_not_mem records r hr

/-- C6: `initializeRequest` is idempotent in a non-empty provided key — a
repeat call with the same token returns the same record without erroring and
without touching the store — and an empty provided key (the handler maps a
missing `Idempotency-Key` header to `""`) yields a newly created record with
a fresh unique token and `recovery_point = started`. -/
theorem initializeRequest_idempotent_creation
    (records : List IdempotencyKey) (k method params path : String) :
    (k ≠ "" →
      (initializeRequest (initializeRequest records k method params path).2
          k method params path).1 =
        (initializeRequest records k method params path).1 ∧
      (initializeRequest (initializeRequest records k method params path).2
          k method params path).2 =
        (initializeRequest records k method params path).2) ∧
    (k = "" →
      (initializeRequest records k method params path).1.recovery_point =
          RecoveryPoint.started ∧
        (initializeRequest records k method params path).2 =
          (initializeRequest records k method params path).1 :: records ∧
        ∀ r ∈ records,
          r.idempotency_key ≠
            (initializeRequest records k method params path).1.idempotency_key) := by
  constructor
  · intro hk
    exact initializeRequest_idempotent_nonempty records k method params path hk
  · intro hk
    subst hk
    exact initializeRequest_empty_creates_fresh records method params path

/-- Witness for C6, discharging both halves at concrete stores and tokens. -/
theorem initializeRequest_idempotent_creation_witness :
    ((initializeRequest (initializeRequest [] "tok_x" "POST" "cart_g" "/p").2
          "tok_x" "POST" "cart_g" "/p").1 =
        (initializeRequest [] "tok_x" "POST" "cart_g" "/p").1 ∧
      (initializeRequest (initializeRequest [] "tok_x" "POST" "cart_g" "/p").2
          "tok_x" "POST" "cart_g" "/p").2 =
        (initializeRequest [] "tok_x" "POST" "cart_g" "/p").2) ∧
    ((initializeRequest [keyW] "" "POST" "cart_h" "/q").1.recovery_point =
        RecoveryPoint.started ∧
      (initializeRequest [keyW] "" "POST" "cart_h" "/q").2 =
        (initializeRequest [keyW] "" "POST" "cart_h" "/q").1 :: [keyW] ∧
      keyW.idempotency_key ≠
        (initializeRequest [keyW] "" "POST" "cart_h" "/q").1.idempotency_key) :=
  ⟨(initializeRequest_idempotent_creation [] "tok_x" "POST" "cart_g" "/p").1 (by decide),
   ((initializeRequest_idempotent_creation [keyW] "" "POST" "cart_h" "/q").2 rfl).1,
   ((initializeRequest_idempotent_creation [keyW] "" "POST" "cart_h" "/q").2 rfl).2.1,
   ((initializeRequest_idempotent_creation [keyW] "" "POST" "cart_h" "/q").2 rfl).2.2
     keyW (List.mem_singleton.mpr rfl)⟩

/-! ## Step machine and lock invariant (modelled from the spec)

The executor's step-by-step mode and the `lock`/`unlock` mechanism are not in
the excerpted sources.  Modelled from the spec: a fixed linear ordering of
recovery points; each invocation runs the handler for the current point in
one transaction and either advances to the next point (success) or stays
(recoverable failure); the advisory lock keeps two concurrent callers from
executing a step for the same token at the same time. -/

/-- Position of a recovery point in the fixed linear step ordering. -/
def RecoveryPoint.idx : RecoveryPoint → Nat
  | RecoveryPoint.started => 0
  | RecoveryPoint.tax_lines_validated => 1
  | RecoveryPoint.payment_authorized => 2
  | RecoveryPoint.order_created => 3
  | RecoveryPoint.finished => 4

/-- Successor in the fixed step ordering (`finished` is absorbing). -/
def nextPoint : RecoveryPoint → RecoveryPoint
  | RecoveryPoint.started => RecoveryPoint.tax_lines_validated
  | RecoveryPoint.tax_lines_validated => RecoveryPoint.payment_authorized
  | RecoveryPoint.payment_authorized => RecoveryPoint.order_created
  | RecoveryPoint.order_created => RecoveryPoint.finished
  | RecoveryPoint.finished => RecoveryPoint.finished

/-- Outcome of one step handler: success advances the recovery point;
a recoverable (transient) failure leaves it unchanged for a later retry. -/
inductive StepOutcome where
  | success
  | recoverable
  deriving DecidableEq, Repr

/-- Effect of committing one step on the recovery point. -/
def execStep (o : StepOutcome) (rp : RecoveryPoint) : RecoveryPoint :=
  if rp = RecoveryPoint.finished then RecoveryPoint.finished
  else match o with
    | StepOutcome.success => nextPoint rp
    | StepOutcome.recoverable => rp

/-- Whether an agent currently holds the key's lock and is inside a step. -/
inductive AgentPhase where
  | idle
  | working
  deriving DecidableEq, Repr

/-- State of one idempotency key record contended by two callers: the
persisted recovery point and each caller's phase. -/
structure MState where
  rp : RecoveryPoint
  w1 : AgentPhase
  w2 : AgentPhase
  deriving DecidableEq, Repr

/-- Transitions of the two-caller step machine: a caller may acquire the lock
only while nobody holds it, and a caller holding the lock may commit its step
(releasing the lock and updating the recovery point per the outcome). -/
inductive MStep : MState → MState → Prop where
  | acquire1 (s : MState) (h1 : s.w1 = AgentPhase.idle) (h2 : s.w2 = AgentPhase.idle) :
      MStep s { s with w1 := AgentPhase.working }
  | acquire2 (s : MState) (h1 : s.w2 = AgentPhase.idle) (h2 : s.w1 = AgentPhase.idle) :
      MStep s { s with w2 := AgentPhase.working }
  | commit1 (s : MState) (o : StepOutcome) (h : s.w1 = AgentPhase.working) :
      MStep s { rp := execStep o s.rp, w1 := AgentPhase.idle, w2 := s.w2 }
  | commit2 (s : MState) (o : StepOutcome) (h : s.w2 = AgentPhase.working) :
      MStep s { rp := execStep o s.rp, w1 := s.w1, w2 := AgentPhase.idle }

/-- Initial state: a fresh token at `started`, both callers idle. -/
def initState : MState :=
  { rp := RecoveryPoint.started, w1 := AgentPhase.idle, w2 := AgentPhase.idle }

/-- Mutual exclusion: the two callers are never both inside a step. -/
def mutexInv (s : MState) : Prop :=
  ¬(s.w1 = AgentPhase.working ∧ s.w2 = AgentPhase.working)

/-- One committed step moves the recovery point forward by at most one
position and never backward. -/
theorem execStep_idx_mono (o : StepOutcome) (rp : RecoveryPoint) :
    rp.idx ≤ (execStep o rp).idx ∧ (execStep o rp).idx ≤ rp.idx + 1 := by
  cases o <;> cases rp <;> simp [execStep, nextPoint, RecoveryPoint.idx]

/-- Every post-state of a transition satisfies mutual exclusion: an acquire
requires the other caller idle, and a commit releases the lock. -/
theorem mutexInv_preserved {s s' : MState} (h : MStep s s') :
    mutexInv s' := by
  cases h with
  | acquire1 h1 h2 => intro hc; simp [h2] at hc
  | acquire2 h1 h2 => intro hc; simp [h2] at hc
  | commit1 o h => intro hc; simp at hc
  | commit2 o h => intro hc; simp at hc

/-- Mutual exclusion holds in every state reachable from the initial one. -/
theorem mutexInv_reachable {s : MState}
    (h : Relation.ReflTransGen MStep initState s) : mutexInv s := by
  induction h with
  | refl => intro hc; exact absurd hc.1 (by simp [initState])
  | tail _ hstep _ => exact mutexInv_preserved hstep

/-- C7: along every execution from a fresh key, each transition moves
`recovery_point` forward through the fixed linear ordering — never backward
and by at most one position, so no step is skipped — and no reachable state
has both callers executing a step at once. -/
theorem recovery_point_forward_and_serialized (s s' : MState)
    (hreach : Relation.ReflTransGen MStep initState s) (hstep : MStep s s') :
    (s.rp.idx ≤ s'.rp.idx ∧ s'.rp.idx ≤ s.rp.idx + 1) ∧
      ¬(s'.w1 = AgentPhase.working ∧ s'.w2 = AgentPhase.working) := by
  refine ⟨?_, mutexInv_reachable (hreach.tail hstep)⟩
  cases hstep with
  | acquire1 h1 h2 => exact ⟨le_refl _, Nat.le_succ _⟩
  | acquire2 h1 h2 => exact ⟨le_refl _, Nat.le_succ _⟩
  | commit1 o h => exact execStep_idx_mono o s.rp
  | commit2 o h => exact execStep_idx_mono o s.rp

/-- Witness for C7: the initial state acquiring the lock for caller one. -/
theorem recovery_point_forward_and_serialized_witness :
    ((initState.rp.idx ≤ (MState.mk RecoveryPoint.started AgentPhase.working AgentPhase.idle).rp.idx ∧
        (MState.mk RecoveryPoint.started AgentPhase.working AgentPhase.idle).rp.idx ≤
          initState.rp.idx + 1) ∧
      ¬((MState.mk RecoveryPoint.started AgentPhase.working AgentPhase.idle).w1 = AgentPhase.working ∧
        (MState.mk RecoveryPoint.started AgentPhase.working AgentPhase.idle).w2 = AgentPhase.working)) :=
  recovery_point_forward_and_serialized initState
    (MState.mk RecoveryPoint.started AgentPhase.working AgentPhase.idle)
    Relation.ReflTransGen.refl (MStep.acquire1 initState rfl rfl)

/-! ## Price selection strategy (modelled from the spec)

The sources contain only the `IPriceSelectionStrategy` interface with its
`PriceSelectionContext` and `PriceSelectionResult` types; the concrete
`calculateVariantPrice` is not excerpted.  Modelled from the spec: "Must
deterministically pick, among all price records applicable to a variant, the
one matching currency/region and the narrowest applicable customer/quantity
rule; `calculatedPrice` reflects any discount-eligible price when
`includeDiscountPrices` is set, `originalPrice` is always the undiscounted
reference price. Returns `null` for either field when no applicable price
exists — never throws for 'no price found.'" -/

/-- A persisted price record (`MoneyAmount`): an amount scoped to a currency
and optionally a region, a price list (discount source) and quantity
bounds. -/
structure MoneyAmount where
  amount : Int
  currency_code : String
  region_id : Option String
  price_list_id : Option String
  min_quantity : Option Nat
  max_quantity : Option Nat
  deriving DecidableEq, Repr

/-- The optional selection context, per `PriceSelectionContext` in the
source: region, currency, quantity and the discount toggle. -/
structure PriceSelectionContext where
  region_id : Option String
  currency_code : Option String
  quantity : Option Nat
  includeDiscountPrices : Bool
  deriving DecidableEq, Repr

/-- The selection result, per `PriceSelectionResult` in the source:
`originalPrice` and `calculatedPrice` are nullable, `prices` lists all
applicable records. -/
structure PriceSelectionResult where
  originalPrice : Option Int
  calculatedPrice : Option Int
  prices : List MoneyAmount
  deriving DecidableEq, Repr

/-- A record matches the context's region or currency. -/
def regionOrCurrencyMatch (ctx : PriceSelectionContext) (ma : MoneyAmount) : Bool :=
  (match ctx.region_id, ma.region_id with
   | some cr, some r => cr == r
   | _, _ => false) ||
  (match ctx.currency_code with
   | some c => ma.currency_code == c
   | none => false)

/-- A record's quantity bounds admit the context's quantity. -/
def quantityMatch (ctx : PriceSelectionContext) (ma : MoneyAmount) : Bool :=
  (match ma.min_quantity, ctx.quantity with
   | some m, some q => m ≤ q
   | some _, none => false
   | none, _ => true) &&
  (match ma.max_quantity, ctx.quantity with
   | some m, some q => q ≤ m
   | some _, none => false
   | none, _ => true)

/-- A price record applies to a context: region/currency match plus the
quantity rule. -/
def isApplicable (ctx : PriceSelectionContext) (ma : MoneyAmount) : Bool :=
  regionOrCurrencyMatch ctx ma && quantityMatch ctx ma

/-- The price rows belonging to one variant in the price database. -/
def variantRows (db : List (String × MoneyAmount)) (variantId : String) :
    List MoneyAmount :=
  (db.filter (fun p => p.1 == variantId)).map Prod.snd

/-- Modelled from the spec: `calculateVariantPrice(variant, context)`.
Filters the variant's rows down to the applicable ones; `originalPrice` is
the undiscounted (no price list) reference price, `calculatedPrice` is the
cheapest applicable price when `includeDiscountPrices` is set and the
reference price otherwise.  Total — no applicable record yields `none`
fields, never an error. -/
def calculateVariantPrice (db : List (String × MoneyAmount)) (variantId : String)
    (ctx : PriceSelectionContext) : PriceSelectionResult :=
  let applicable := (variantRows db variantId).filter (isApplicable ctx)
  let defaults := applicable.filter (fun ma => ma.price_list_id.isNone)
  let originalPrice := defaults.head?.map MoneyAmount.amount
  { originalPrice := originalPrice
    calculatedPrice :=
      if ctx.includeDiscountPrices then (applicable.map MoneyAmount.amount).min?
      else originalPrice
    prices := applicable }

/-- C8: when no price record of the variant applies to the context, both
`originalPrice` and `calculatedPrice` come back `none` — the strategy
returns, it does not fail. -/
theorem calculateVariantPrice_no_applicable_null
    (db : List (String × MoneyAmount)) (variantId : String)
    (ctx : PriceSelectionContext)
    (h : ∀ ma ∈ variantRows db variantId, isApplicable ctx ma = false) :
    (calculateVariantPrice db variantId ctx).originalPrice = none ∧
      (calculateVariantPrice db variantId ctx).calculatedPrice = none := by
  have happ : (variantRows db variantId).filter (isApplicable ctx) = [] := by
    rw [List.filter_eq_nil_iff]
    intro ma hma
    simp [h ma hma]
  constructor <;> simp [calculateVariantPrice, happ]

/-- Price database for the C8 witness: one USD row for the variant. -/
def dbC8 : List (String × MoneyAmount) :=
  [("variant_1", ⟨1000, "usd", none, none, none, none⟩)]

/-- Context for the C8 witness: EUR, no region — the USD row does not
apply. -/
def ctxC8 : PriceSelectionContext := ⟨none, some "eur", none, false⟩

/-- Witness for C8: the EUR context finds no applicable price and gets
`none`/`none`. -/
theorem calculateVariantPrice_no_applicable_null_witness :
    (calculateVariantPrice dbC8 "variant_1" ctxC8).originalPrice = none ∧
      (calculateVariantPrice dbC8 "variant_1" ctxC8).calculatedPrice = none :=
  calculateVariantPrice_no_applicable_null dbC8 "variant_1" ctxC8 (by decide)

/-- C9: price selection is deterministic and depends only on the variant's
own price rows and the context — two price databases that agree on the
variant's rows yield the same `originalPrice`/`calculatedPrice` pair for any
fixed context, so repeated calls with unchanged inputs always agree. -/
theorem calculateVariantPrice_deterministic
    (db1 db2 : List (String × MoneyAmount)) (variantId : String)
    (ctx : PriceSelectionContext)
    (h : variantRows db1 variantId = variantRows db2 variantId) :
    (calculateVariantPrice db1 variantId ctx).originalPrice =
        (calculateVariantPrice db2 variantId ctx).originalPrice ∧
      (calculateVariantPrice db1 variantId ctx).calculatedPrice =
        (calculateVariantPrice db2 variantId ctx).calculatedPrice := by
  constructor <;> simp [calculateVariantPrice, h]

/-- First price database for the C9 witness. -/
def dbC9a : List (String × MoneyAmount) :=
  [("variant_2", ⟨2000, "usd", some "reg_na", none, none, none⟩),
   ("variant_2", ⟨1500, "usd", some "reg_na", some "pl_sale", none, none⟩)]

/-- Second price database for the C9 witness: same rows for `variant_2`, an
extra row for another variant. -/
def dbC9b : List (String × MoneyAmount) :=
  [("variant_2", ⟨2000, "usd", some "reg_na", none, none, none⟩),
   ("variant_2", ⟨1500, "usd", some "reg_na", some "pl_sale", none, none⟩),
   ("variant_3", ⟨99, "eur", none, none, none, none⟩)]

/-- Context for the C9 witness: fixed region and currency, discounts on. -/
def ctxC9 : PriceSelectionContext := ⟨some "reg_na", some "usd", none, true⟩

/-- Witness for C9 at two concrete databases agreeing on the variant. -/
theorem calculateVariantPrice_deterministic_witness :
    (calculateVariantPrice dbC9a "variant_2" ctxC9).originalPrice =
        (calculateVariantPrice dbC9b "variant_2" ctxC9).originalPrice ∧
      (calculateVariantPrice dbC9a "variant_2" ctxC9).calculatedPrice =
        (calculateVariantPrice dbC9b "variant_2" ctxC9).calculatedPrice :=
  calculateVariantPrice_deterministic dbC9a dbC9b "variant_2" ctxC9 (by decide)

end Medusa
